import Mathlib

set_option autoImplicit false

/-!
Verification of the trigger subscription and filtering layer of
`js/src/sdk/models/triggers.ts`.

The development embeds the JavaScript code shallowly:

* a filter field (`filters.appName`, ...) is a `JsField`: the key may be
  missing from the object, present with value `undefined`, or present with a
  string value;
* the incoming event payload is `TriggerData`; the nested
  `metadata.connection` object is optional, matching payloads that arrive
  without it;
* expressions that may throw are modelled in `Except JsError`;
* `String.prototype.toLowerCase` is `jsToLower`, a character map.
-/

deriving instance DecidableEq for Except

namespace ComposioTriggers

/-- A string-valued field of a plain JavaScript object: the key may be missing
from the object, present with the value `undefined`, or present with a string
value. `Object.keys` counts the second and third cases; the truthiness test
`!x` succeeds on everything except a non-empty string. -/
inductive JsField where
  | absent
  | undef
  | str (s : String)
  deriving Repr, DecidableEq

/-- Whether the key is present in the object, as seen by `Object.keys`. -/
def JsField.present : JsField → Bool
  | .absent => false
  | .undef => true
  | .str _ => true

/-- JavaScript truthiness test on a field: `!x` is true exactly when the key is
missing, `undefined`, or the empty string. `falsy f = !(truthy f)`. -/
def JsField.falsy : JsField → Bool
  | .absent => true
  | .undef => true
  | .str s => s == ""

/-- A constrained field: present with a non-empty (truthy) string value, hence
an actual equality constraint in the filter. -/
def JsField.constrained : JsField → Bool
  | .absent => false
  | .undef => false
  | .str s => !(s == "")

/-- The filter criteria accepted by `subscribe` (type
`TTriggerSubscribeParam`): six optional string fields. -/
structure Filters where
  appName : JsField := .absent
  triggerId : JsField := .absent
  connectionId : JsField := .absent
  triggerName : JsField := .absent
  entityId : JsField := .absent
  integrationId : JsField := .absent
  deriving Repr, DecidableEq

/-- `Object.keys(filters).length` (triggers.ts line 209): the number of keys
present on the filter object, whatever their values. -/
def Filters.keyCount (f : Filters) : Nat :=
  f.appName.present.toNat + f.triggerId.present.toNat +
    f.connectionId.present.toNat + f.triggerName.present.toNat +
    f.entityId.present.toNat + f.integrationId.present.toNat

/-- The number of actual constraints (truthy fields) in the filter. -/
def Filters.constrainedCount (f : Filters) : Nat :=
  f.appName.constrained.toNat + f.triggerId.constrained.toNat +
    f.connectionId.constrained.toNat + f.triggerName.constrained.toNat +
    f.entityId.constrained.toNat + f.integrationId.constrained.toNat

/-- The nested `metadata.connection` object of an event payload. -/
structure Connection where
  clientUniqueUserId : String
  integrationId : String
  deriving Repr, DecidableEq

/-- The `metadata` object of an event payload. The `connection` object may be
missing from the payload, which the embedding records as `none`. -/
structure TriggerMetadata where
  id : String
  connectionId : String
  triggerName : String
  connection : Option Connection
  deriving Repr, DecidableEq

/-- An incoming trigger event (`TriggerData`). -/
structure TriggerData where
  appName : String
  metadata : TriggerMetadata
  deriving Repr, DecidableEq

/-- A thrown JavaScript exception: a `TypeError` from reading a property of
`undefined`, or a plain `Error` constructed by the code. -/
inductive JsError where
  | typeError (msg : String)
  | plainError (msg : String)
  deriving Repr, DecidableEq

/-- `String.prototype.toLowerCase`, character by character. -/
def jsToLower (s : String) : String :=
  String.mk (s.data.map Char.toLower)

/-- One conjunct of the filter check for a field whose event attribute is a
plain string that is always present:
`(!filters.x || data.attr.toLowerCase() === filters.x.toLowerCase())`. -/
def fieldCheck : JsField → String → Bool
  | .absent, _ => true
  | .undef, _ => true
  | .str s, attr => s == "" || jsToLower attr == jsToLower s

/-- One conjunct for a filter field compared against an attribute of
`data.metadata.connection`. When the filter field is truthy the code reads
`data.metadata.connection.<prop>` with no guard, which throws a `TypeError`
when the `connection` object is missing from the payload. -/
def connCheck (fld : JsField) (conn : Option Connection)
    (proj : Connection → String) (prop : String) : Except JsError Bool :=
  match fld with
  | .absent => .ok true
  | .undef => .ok true
  | .str s =>
    if s == "" then .ok true
    else
      match conn with
      | none =>
        .error (.typeError
          ("Cannot read properties of undefined reading " ++ prop))
      | some c => .ok (jsToLower (proj c) == jsToLower s)

/-- Short-circuit JavaScript `&&` over boolean subexpressions that may
throw: the right operand is evaluated only when the left is true. -/
def jsAnd (a : Except JsError Bool) (b : Unit → Except JsError Bool) :
    Except JsError Bool :=
  match a with
  | .error e => .error e
  | .ok false => .ok false
  | .ok true => b ()

/-- The filter predicate `shouldSendTrigger` of triggers.ts lines 208 to 231:
if the filter object has no keys, return true; otherwise return the
short-circuit conjunction of six per-field comparisons, each comparison
passing when the filter field is falsy or the lower-cased event attribute
equals the lower-cased filter value. The `entityId` and `integrationId`
conjuncts read attributes of `data.metadata.connection`. -/
def shouldSendTrigger (filters : Filters) (data : TriggerData) :
    Except JsError Bool :=
  if filters.keyCount == 0 then .ok true
  else
    jsAnd (.ok (fieldCheck filters.appName data.appName)) fun _ =>
    jsAnd (.ok (fieldCheck filters.triggerId data.metadata.id)) fun _ =>
    jsAnd (.ok (fieldCheck filters.connectionId data.metadata.connectionId))
      fun _ =>
    jsAnd (.ok (fieldCheck filters.triggerName data.metadata.triggerName))
      fun _ =>
    jsAnd (connCheck filters.entityId data.metadata.connection
      Connection.clientUniqueUserId "clientUniqueUserId") fun _ =>
    connCheck filters.integrationId data.metadata.connection
      Connection.integrationId "integrationId"

/-- The comparison of one filter dimension as the specification words it: true
iff the filter field sets no constraint on the dimension, or it is a
constraint case-insensitively equal to the corresponding event attribute; a
missing event attribute fails any constraint on it. -/
def specCmp : JsField → Option String → Bool
  | .absent, _ => true
  | .undef, _ => true
  | .str s, some a => jsToLower a == jsToLower s
  | .str _, none => false

/-- The specification-side matching relation: the conjunction of the six
dimension comparisons. The event attribute corresponding to `entityId` is
`metadata.connection.clientUniqueUserId` and to `integrationId` is
`metadata.connection.integrationId`; both are missing when the `connection`
object is. -/
def matchesSpec (f : Filters) (d : TriggerData) : Bool :=
  specCmp f.appName (some d.appName) &&
  specCmp f.triggerId (some d.metadata.id) &&
  specCmp f.connectionId (some d.metadata.connectionId) &&
  specCmp f.triggerName (some d.metadata.triggerName) &&
  specCmp f.entityId (d.metadata.connection.map Connection.clientUniqueUserId) &&
  specCmp f.integrationId (d.metadata.connection.map Connection.integrationId)

/-- A well-formed filter field per the data model of spec section 3: either
absent, or an actual constraint, that is a non-empty string. Keys explicitly
set to `undefined` or to the empty string are the degenerate inputs settled
separately (claim C10). -/
def JsField.wf : JsField → Bool
  | .absent => true
  | .undef => false
  | .str s => !(s == "")

/-- A well-formed filter: all six fields well-formed. -/
def Filters.wf (f : Filters) : Bool :=
  f.appName.wf && f.triggerId.wf && f.connectionId.wf && f.triggerName.wf &&
    f.entityId.wf && f.integrationId.wf

/-- One filter dimension is a real constraint and differs from the event
attribute it is compared against. -/
def fieldDiffers (fld : JsField) (attr : Option String) : Bool :=
  fld.constrained && !(specCmp fld attr)

/-- At least one constrained filter dimension differs from the corresponding
event attribute. -/
def someConstrainedDiffers (f : Filters) (d : TriggerData) : Bool :=
  fieldDiffers f.appName (some d.appName) ||
  fieldDiffers f.triggerId (some d.metadata.id) ||
  fieldDiffers f.connectionId (some d.metadata.connectionId) ||
  fieldDiffers f.triggerName (some d.metadata.triggerName) ||
  fieldDiffers f.entityId (d.metadata.connection.map Connection.clientUniqueUserId) ||
  fieldDiffers f.integrationId (d.metadata.connection.map Connection.integrationId)

/-- All six constraint fields of the filter are falsy: missing, `undefined`,
or the empty string. -/
def Filters.allFalsy (f : Filters) : Bool :=
  f.appName.falsy && f.triggerId.falsy && f.connectionId.falsy &&
    f.triggerName.falsy && f.entityId.falsy && f.integrationId.falsy

/-- Two filter fields equal up to letter case: same key shape, and string
values with the same lower-casing. -/
def JsField.caseEquiv : JsField → JsField → Bool
  | .absent, .absent => true
  | .undef, .undef => true
  | .str s, .str t => jsToLower s == jsToLower t
  | _, _ => false

/-- Two filters equal up to letter case of their field values. -/
def Filters.caseEquiv (f g : Filters) : Bool :=
  f.appName.caseEquiv g.appName && f.triggerId.caseEquiv g.triggerId &&
    f.connectionId.caseEquiv g.connectionId &&
    f.triggerName.caseEquiv g.triggerName && f.entityId.caseEquiv g.entityId &&
    f.integrationId.caseEquiv g.integrationId

/-- Two optional connection objects equal up to letter case. -/
def connObjEquiv : Option Connection → Option Connection → Bool
  | none, none => true
  | some c1, some c2 =>
    (jsToLower c1.clientUniqueUserId == jsToLower c2.clientUniqueUserId) &&
      (jsToLower c1.integrationId == jsToLower c2.integrationId)
  | _, _ => false

/-- Two events equal up to letter case of their string attributes. -/
def TriggerData.caseEquiv (d e : TriggerData) : Bool :=
  (jsToLower d.appName == jsToLower e.appName) &&
    (jsToLower d.metadata.id == jsToLower e.metadata.id) &&
    (jsToLower d.metadata.connectionId == jsToLower e.metadata.connectionId) &&
    (jsToLower d.metadata.triggerName == jsToLower e.metadata.triggerName) &&
    connObjEquiv d.metadata.connection e.metadata.connection

/-- The projection of two optional connection objects to one attribute agrees
up to letter case. -/
def connAttrEquiv (proj : Connection → String) :
    Option Connection → Option Connection → Prop
  | none, none => True
  | some c1, some c2 => jsToLower (proj c1) = jsToLower (proj c2)
  | _, _ => False

/-- Every constrained (truthy) filter field equals the corresponding event
attribute case-insensitively; falsy fields impose nothing. -/
def constrainedMatches : JsField → Option String → Bool
  | .absent, _ => true
  | .undef, _ => true
  | .str s, attr =>
    s == "" ||
      match attr with
      | some a => jsToLower a == jsToLower s
      | none => false

/-- Every constrained field of the filter matches the corresponding event
attribute case-insensitively. -/
def allConstrainedMatch (f : Filters) (d : TriggerData) : Bool :=
  constrainedMatches f.appName (some d.appName) &&
  constrainedMatches f.triggerId (some d.metadata.id) &&
  constrainedMatches f.connectionId (some d.metadata.connectionId) &&
  constrainedMatches f.triggerName (some d.metadata.triggerName) &&
  constrainedMatches f.entityId
    (d.metadata.connection.map Connection.clientUniqueUserId) &&
  constrainedMatches f.integrationId
    (d.metadata.connection.map Connection.integrationId)

/-- A subscription record: the filter criteria captured by the listener
closure, and an identifier standing for the subscriber callback closure, so
that which callback ran is observable. -/
structure Subscription where
  filters : Filters
  fnId : Nat

/-- Modelled from the spec: the per-client-identity subscription registry kept
by `PusherUtils.triggerSubscribe` and `PusherUtils.triggerUnsubscribe`
(js/src/sdk/utils/pusher.ts, which is not among the sources here). Spec
section 4.2: at most one active subscription per client identity, with
register-or-replace and clear operations. -/
def Registry := String → Option Subscription

/-- The registry with no subscription for any identity. -/
def Registry.empty : Registry := fun _ => none

/-- Modelled from the spec (section 4.2): store or replace the single active
subscription for the identity, last writer wins. -/
def Registry.register (r : Registry) (cid : String) (s : Subscription) :
    Registry :=
  fun c => if c = cid then some s else r c

/-- Modelled from the spec (section 4.2): remove the active subscription for
the identity. -/
def Registry.clear (r : Registry) (cid : String) : Registry :=
  fun c => if c = cid then none else r c

/-- The listener closure built by `subscribe` (triggers.ts lines 234 to 238):
`(data) => { if (shouldSendTrigger(data)) { fn(data) } }`. `fn` returns
normally or throws; the result records whether the subscriber callback was
invoked. There is no try/catch, so an exception from `shouldSendTrigger` or
from the callback propagates to whoever invoked the listener, that is into
the transport dispatch path. -/
def listenerBody (filters : Filters) (fn : TriggerData → Except JsError Unit)
    (data : TriggerData) : Except JsError Bool :=
  match shouldSendTrigger filters data with
  | .error e => .error e
  | .ok false => .ok false
  | .ok true =>
    match fn data with
    | .ok _ => .ok true
    | .error e => .error e

/-- Modelled from the spec (sections 4.2 and 4.3): the transport delivers an
event for a client identity by invoking the listener registered for that
identity, if any. Returns the identifier of the subscriber callback that was
invoked, `none` when no callback ran, and an error when the listener threw
back into the dispatch path. `cbs` gives the behaviour of each subscriber
callback; the listener body itself is the one from triggers.ts. -/
def dispatchEvent (cbs : Nat → TriggerData → Except JsError Unit)
    (r : Registry) (cid : String) (data : TriggerData) :
    Except JsError (Option Nat) :=
  match r cid with
  | none => .ok none
  | some s =>
    match listenerBody s.filters (cbs s.fnId) data with
    | .error e => .error e
    | .ok true => .ok (some s.fnId)
    | .ok false => .ok none

/-- The external calls `subscribe` and `unsubscribe` can make, in order:
resolving the client identity, initialising the transport client, and binding
the listener. -/
inductive ExtCall where
  | getClientId
  | getPusherClient
  | triggerSubscribe
  deriving Repr, DecidableEq

/-- The observable outcome of a `subscribe` call: the registry afterwards, the
value the returned promise settles with, and the external calls made. -/
structure SubscribeOutcome where
  registry : Registry
  result : Except JsError Unit
  calls : List ExtCall

/-- The body of `Triggers.subscribe` (triggers.ts lines 190 to 239) as a step
on the registry state. Telemetry and debug logging are omitted. `fnOpt` is
`none` when the call passes no callback, in which case the guard
`if (!fn) throw new Error(...)` fires before either external call.
`clientId` is the identity `backendClient.getClientId()` resolves;
`transport` is the outcome of `PusherUtils.getPusherClient(...)`, which
rejects when the real-time transport cannot be initialised, and `subscribe`
does not catch that rejection. On success the listener closure over the given
filter and callback is registered for the identity, replacing any previous
one (registration modelled from the spec, section 4.2). -/
def subscribeModel (st : Registry) (fnOpt : Option Nat) (filters : Filters)
    (clientId : String) (transport : Except JsError Unit) : SubscribeOutcome :=
  match fnOpt with
  | none =>
    ⟨st, .error (.plainError "Function is required for trigger subscription"),
      []⟩
  | some fnId =>
    match transport with
    | .error e => ⟨st, .error e, [.getClientId, .getPusherClient]⟩
    | .ok _ =>
      ⟨st.register clientId ⟨filters, fnId⟩, .ok (),
        [.getClientId, .getPusherClient, .triggerSubscribe]⟩

/-- The body of `Triggers.unsubscribe` (triggers.ts lines 241 to 244):
resolve the client identity, then `PusherUtils.triggerUnsubscribe(clientId)`
clears the subscription for it (clearing modelled from the spec,
section 4.2). -/
def unsubscribeModel (st : Registry) (clientId : String) : Registry :=
  st.clear clientId

/-- A request to `PATCH /trigger-instance/{triggerId}` issued through
`apiClient.triggers.switchTriggerInstanceStatus`: the path parameter and the
`enabled` flag sent in the body. -/
structure SwitchRequest where
  triggerId : String
  enabled : Bool
  deriving Repr, DecidableEq

/-- The upstream outcome of the remote status-switch call: success, or a
failure carrying the upstream status and message. -/
inductive RemoteOutcome where
  | success
  | failure (status : Nat) (message : String)
  deriving Repr, DecidableEq

/-- Modelled from the spec (section 7): `CEG.handleAllError`
(js/src/sdk/utils/error.ts, not among the sources here) wraps an upstream
failure into an error of the RemoteError kind carrying the upstream status
and message, which the enable and disable paths rethrow. -/
inductive ComposioError where
  | remoteError (status : Nat) (message : String)
  deriving Repr, DecidableEq

/-- `Triggers.enable` (triggers.ts lines 111 to 131) on an already validated
trigger instance identifier: issue one status-switch request with
`enabled: true`; resolve `true` when the remote call succeeds, rethrow the
wrapped upstream failure otherwise. The second component lists the remote
requests issued. -/
def enable (triggerInstanceId : String) (remote : RemoteOutcome) :
    Except ComposioError Bool × List SwitchRequest :=
  match remote with
  | .success => (.ok true, [⟨triggerInstanceId, true⟩])
  | .failure status msg =>
    (.error (.remoteError status msg), [⟨triggerInstanceId, true⟩])

/-- `Triggers.disable` (triggers.ts lines 140 to 160): identical to `enable`
except that the body sent is `enabled: false`. -/
def disable (triggerInstanceId : String) (remote : RemoteOutcome) :
    Except ComposioError Bool × List SwitchRequest :=
  match remote with
  | .success => (.ok true, [⟨triggerInstanceId, false⟩])
  | .failure status msg =>
    (.error (.remoteError status msg), [⟨triggerInstanceId, false⟩])

theorem fieldCheck_eq_specCmp (fld : JsField) (a : String)
    (h : fld.wf = true) : fieldCheck fld a = specCmp fld (some a) := by
  cases fld <;> simp_all [JsField.wf, fieldCheck, specCmp]

theorem connCheck_eq_specCmp (fld : JsField) (c : Connection)
    (proj : Connection → String) (prop : String) (h : fld.wf = true) :
    connCheck fld (some c) proj prop = .ok (specCmp fld (some (proj c))) := by
  cases fld <;> simp_all [JsField.wf, connCheck, specCmp]

theorem jsAnd_chain (b1 b2 b3 b4 b5 b6 : Bool) :
    jsAnd (.ok b1) (fun _ => jsAnd (.ok b2) (fun _ => jsAnd (.ok b3)
      (fun _ => jsAnd (.ok b4) (fun _ => jsAnd (.ok b5)
      (fun _ => .ok b6))))) = .ok (b1 && b2 && b3 && b4 && b5 && b6) := by
  cases b1 <;> cases b2 <;> cases b3 <;> cases b4 <;> cases b5 <;> cases b6 <;>
    rfl

theorem JsField.constrained_le_present (fld : JsField) :
    fld.constrained.toNat ≤ fld.present.toNat := by
  cases fld with
  | absent => simp [JsField.constrained, JsField.present]
  | undef => simp [JsField.constrained, JsField.present]
  | str s =>
    cases h : (s == "") <;> simp [JsField.constrained, JsField.present, h]

theorem constrainedCount_le_keyCount (f : Filters) :
    f.constrainedCount ≤ f.keyCount := by
  have h1 := f.appName.constrained_le_present
  have h2 := f.triggerId.constrained_le_present
  have h3 := f.connectionId.constrained_le_present
  have h4 := f.triggerName.constrained_le_present
  have h5 := f.entityId.constrained_le_present
  have h6 := f.integrationId.constrained_le_present
  unfold Filters.constrainedCount Filters.keyCount
  omega

theorem specCmp_false_of_fieldDiffers (fld : JsField) (attr : Option String)
    (h : fieldDiffers fld attr = true) : specCmp fld attr = false := by
  unfold fieldDiffers at h
  simp only [Bool.and_eq_true] at h
  simpa using h.2

theorem matchesSpec_false_of_differs (f : Filters) (d : TriggerData)
    (h : someConstrainedDiffers f d = true) : matchesSpec f d = false := by
  simp only [someConstrainedDiffers, Bool.or_eq_true, or_assoc] at h
  rcases h with h | h | h | h | h | h <;>
    simp [matchesSpec, specCmp_false_of_fieldDiffers _ _ h]

/-- C1: for every well-formed filter with at least one constrained field and
every event carrying its `connection` object, `shouldSendTrigger` returns the
logical AND of the six per-dimension comparisons of `matchesSpec`, each
comparison being true iff the filter field sets no constraint or is
case-insensitively equal to the corresponding event attribute; in particular,
when at least one constrained field differs from the corresponding event
attribute the result is false. -/
theorem shouldSendTrigger_eq_matchesSpec (f : Filters) (d : TriggerData)
    (c : Connection) (hwf : f.wf = true) (hcons : 0 < f.constrainedCount)
    (hc : d.metadata.connection = some c) :
    shouldSendTrigger f d = .ok (matchesSpec f d) ∧
    (someConstrainedDiffers f d = true →
      shouldSendTrigger f d = .ok false) := by
  simp only [Filters.wf, Bool.and_eq_true] at hwf
  obtain ⟨⟨⟨⟨⟨hw1, hw2⟩, hw3⟩, hw4⟩, hw5⟩, hw6⟩ := hwf
  have hne : f.keyCount ≠ 0 := by
    have hle := constrainedCount_le_keyCount f
    omega
  have hk : (f.keyCount == 0) = false := beq_eq_false_iff_ne.mpr hne
  have hmain : shouldSendTrigger f d = .ok (matchesSpec f d) := by
    unfold shouldSendTrigger
    rw [hk, hc]
    simp only [Bool.false_eq_true, if_false]
    simp only [fieldCheck_eq_specCmp f.appName d.appName hw1,
      fieldCheck_eq_specCmp f.triggerId d.metadata.id hw2,
      fieldCheck_eq_specCmp f.connectionId d.metadata.connectionId hw3,
      fieldCheck_eq_specCmp f.triggerName d.metadata.triggerName hw4,
      connCheck_eq_specCmp f.entityId c Connection.clientUniqueUserId
        "clientUniqueUserId" hw5,
      connCheck_eq_specCmp f.integrationId c Connection.integrationId
        "integrationId" hw6]
    rw [jsAnd_chain]
    simp [matchesSpec, hc]
  refine ⟨hmain, fun hdiff => ?_⟩
  rw [hmain, matchesSpec_false_of_differs f d hdiff]

/-- Witness for C1 at the filter `{appName: "GitHub"}` and a github event
carrying its connection object. -/
theorem shouldSendTrigger_eq_matchesSpec_witness :
    Filters.wf { appName := .str "GitHub" } = true ∧
    0 < Filters.constrainedCount { appName := .str "GitHub" } ∧
    (shouldSendTrigger { appName := .str "GitHub" }
        ⟨"github", ⟨"i", "c", "t", some ⟨"u", "ig"⟩⟩⟩ =
      .ok (matchesSpec { appName := .str "GitHub" }
        ⟨"github", ⟨"i", "c", "t", some ⟨"u", "ig"⟩⟩⟩) ∧
      (someConstrainedDiffers { appName := .str "GitHub" }
          ⟨"github", ⟨"i", "c", "t", some ⟨"u", "ig"⟩⟩⟩ = true →
        shouldSendTrigger { appName := .str "GitHub" }
          ⟨"github", ⟨"i", "c", "t", some ⟨"u", "ig"⟩⟩⟩ = .ok false)) :=
  ⟨by decide, by decide,
    shouldSendTrigger_eq_matchesSpec { appName := .str "GitHub" }
      ⟨"github", ⟨"i", "c", "t", some ⟨"u", "ig"⟩⟩⟩ ⟨"u", "ig"⟩
      (by decide) (by decide) rfl⟩

/-- C2 (code-bug evidence): a filter constraining `entityId`, applied to an
event whose `metadata.connection` object is missing, makes
`shouldSendTrigger` throw a TypeError from the unguarded read
`data.metadata.connection.clientUniqueUserId` (triggers.ts line 224), instead
of failing closed with false as the specification requires. -/
theorem shouldSendTrigger_throws_on_missing_connection :
    shouldSendTrigger { entityId := .str "user1" }
      ⟨"github", ⟨"id1", "conn1", "trig1", none⟩⟩ =
      .error (.typeError
        "Cannot read properties of undefined reading clientUniqueUserId") := by
  decide

/-- C3: a filter object with no keys matches every event unconditionally,
including events missing the nested connection object. -/
theorem emptyFilter_matches_all (f : Filters) (d : TriggerData)
    (h : f.keyCount = 0) : shouldSendTrigger f d = .ok true := by
  unfold shouldSendTrigger
  simp [h]

/-- Witness for C3 at the empty filter object and an event with no connection
object. -/
theorem emptyFilter_matches_all_witness :
    Filters.keyCount {} = 0 ∧
    shouldSendTrigger {} ⟨"github", ⟨"i", "c", "t", none⟩⟩ = .ok true :=
  ⟨by decide, emptyFilter_matches_all {} ⟨"github", ⟨"i", "c", "t", none⟩⟩
    (by decide)⟩

theorem fieldCheck_of_falsy (fld : JsField) (a : String)
    (h : fld.falsy = true) : fieldCheck fld a = true := by
  cases fld <;> simp_all [JsField.falsy, fieldCheck]

theorem connCheck_of_falsy (fld : JsField) (conn : Option Connection)
    (proj : Connection → String) (prop : String) (h : fld.falsy = true) :
    connCheck fld conn proj prop = .ok true := by
  cases fld <;> simp_all [JsField.falsy, connCheck]

/-- C10: a filter object with at least one key but only falsy constraint
values (keys explicitly set to `undefined` or to the empty string) matches
every event: each falsy field passes its conjunct outright, so an
empty-string value acts as no constraint, not as a required match against an
empty attribute. -/
theorem allFalsy_matches_all (f : Filters) (d : TriggerData)
    (hkeys : 0 < f.keyCount) (hfalsy : f.allFalsy = true) :
    shouldSendTrigger f d = .ok true := by
  simp only [Filters.allFalsy, Bool.and_eq_true] at hfalsy
  obtain ⟨⟨⟨⟨⟨h1, h2⟩, h3⟩, h4⟩, h5⟩, h6⟩ := hfalsy
  have hk : (f.keyCount == 0) = false := beq_eq_false_iff_ne.mpr (by omega)
  unfold shouldSendTrigger
  rw [hk]
  simp only [Bool.false_eq_true, if_false]
  simp only [fieldCheck_of_falsy f.appName d.appName h1,
    fieldCheck_of_falsy f.triggerId d.metadata.id h2,
    fieldCheck_of_falsy f.connectionId d.metadata.connectionId h3,
    fieldCheck_of_falsy f.triggerName d.metadata.triggerName h4,
    connCheck_of_falsy f.entityId d.metadata.connection
      Connection.clientUniqueUserId "clientUniqueUserId" h5,
    connCheck_of_falsy f.integrationId d.metadata.connection
      Connection.integrationId "integrationId" h6]
  rfl

/-- Witness for C10 at a filter whose `appName` key is the empty string and
whose `triggerId` key is explicitly `undefined`, against an event with no
connection object and a different app name. -/
theorem allFalsy_matches_all_witness :
    0 < Filters.keyCount { appName := .str "", triggerId := .undef } ∧
    Filters.allFalsy { appName := .str "", triggerId := .undef } = true ∧
    shouldSendTrigger { appName := .str "", triggerId := .undef }
      ⟨"github", ⟨"i", "c", "t", none⟩⟩ = .ok true :=
  ⟨by decide, by decide,
    allFalsy_matches_all { appName := .str "", triggerId := .undef }
      ⟨"github", ⟨"i", "c", "t", none⟩⟩ (by decide) (by decide)⟩

theorem jsToLower_empty_iff (s : String) : jsToLower s = "" ↔ s = "" := by
  obtain ⟨data⟩ := s
  constructor
  · intro h
    have hd : data.map Char.toLower = [] := congrArg String.data h
    have hdata : data = [] := List.map_eq_nil_iff.mp hd
    subst hdata
    rfl
  · intro h
    rw [h]
    rfl

theorem fieldCheck_congr (a b : JsField) (x y : String)
    (hab : a.caseEquiv b = true) (hxy : jsToLower x = jsToLower y) :
    fieldCheck a x = fieldCheck b y := by
  cases a with
  | absent => cases b <;> simp_all [JsField.caseEquiv, fieldCheck]
  | undef => cases b <;> simp_all [JsField.caseEquiv, fieldCheck]
  | str s =>
    cases b with
    | absent => simp_all [JsField.caseEquiv]
    | undef => simp_all [JsField.caseEquiv]
    | str t =>
      simp only [JsField.caseEquiv, beq_iff_eq] at hab
      simp only [fieldCheck]
      rw [Bool.eq_iff_iff]
      simp only [Bool.or_eq_true, beq_iff_eq]
      rw [← jsToLower_empty_iff s, ← jsToLower_empty_iff t, hab, hxy]

theorem connCheck_congr (a b : JsField) (conn1 conn2 : Option Connection)
    (proj : Connection → String) (prop : String)
    (hab : a.caseEquiv b = true) (hconn : connAttrEquiv proj conn1 conn2) :
    connCheck a conn1 proj prop = connCheck b conn2 proj prop := by
  cases a with
  | absent => cases b <;> simp_all [JsField.caseEquiv, connCheck]
  | undef => cases b <;> simp_all [JsField.caseEquiv, connCheck]
  | str s =>
    cases b with
    | absent => simp_all [JsField.caseEquiv]
    | undef => simp_all [JsField.caseEquiv]
    | str t =>
      simp only [JsField.caseEquiv, beq_iff_eq] at hab
      have hst : (s == "") = (t == "") := by
        rw [Bool.eq_iff_iff]
        simp only [beq_iff_eq]
        rw [← jsToLower_empty_iff s, ← jsToLower_empty_iff t, hab]
      simp only [connCheck, hst]
      cases he : (t == "") with
      | true => simp
      | false =>
        simp only [Bool.false_eq_true, if_false]
        cases conn1 with
        | none =>
          cases conn2 with
          | none => rfl
          | some c2 => exact False.elim hconn
        | some c1 =>
          cases conn2 with
          | none => exact False.elim hconn
          | some c2 =>
            have h12 : jsToLower (proj c1) = jsToLower (proj c2) := hconn
            show Except.ok (jsToLower (proj c1) == jsToLower s) =
              Except.ok (jsToLower (proj c2) == jsToLower t)
            rw [h12, hab]

theorem caseEquiv_present (a b : JsField) (h : a.caseEquiv b = true) :
    a.present = b.present := by
  cases a <;> cases b <;> simp_all [JsField.caseEquiv, JsField.present]

theorem caseEquiv_keyCount (f g : Filters) (h : f.caseEquiv g = true) :
    f.keyCount = g.keyCount := by
  simp only [Filters.caseEquiv, Bool.and_eq_true] at h
  obtain ⟨⟨⟨⟨⟨h1, h2⟩, h3⟩, h4⟩, h5⟩, h6⟩ := h
  unfold Filters.keyCount
  rw [caseEquiv_present _ _ h1, caseEquiv_present _ _ h2,
    caseEquiv_present _ _ h3, caseEquiv_present _ _ h4,
    caseEquiv_present _ _ h5, caseEquiv_present _ _ h6]

theorem connAttrEquiv_of_connObjEquiv (conn1 conn2 : Option Connection)
    (h : connObjEquiv conn1 conn2 = true) :
    connAttrEquiv Connection.clientUniqueUserId conn1 conn2 ∧
      connAttrEquiv Connection.integrationId conn1 conn2 := by
  cases conn1 <;> cases conn2 <;> simp_all [connObjEquiv, connAttrEquiv]

theorem shouldSendTrigger_congr (f g : Filters) (d e : TriggerData)
    (hfg : f.caseEquiv g = true) (hde : d.caseEquiv e = true) :
    shouldSendTrigger f d = shouldSendTrigger g e := by
  have hkey := caseEquiv_keyCount f g hfg
  simp only [Filters.caseEquiv, Bool.and_eq_true] at hfg
  obtain ⟨⟨⟨⟨⟨hf1, hf2⟩, hf3⟩, hf4⟩, hf5⟩, hf6⟩ := hfg
  simp only [TriggerData.caseEquiv, Bool.and_eq_true, beq_iff_eq] at hde
  obtain ⟨⟨⟨⟨hd1, hd2⟩, hd3⟩, hd4⟩, hd5⟩ := hde
  obtain ⟨hc1, hc2⟩ := connAttrEquiv_of_connObjEquiv _ _ hd5
  unfold shouldSendTrigger
  rw [hkey]
  cases hq : (g.keyCount == 0) with
  | true => rfl
  | false =>
    simp only [Bool.false_eq_true, if_false]
    simp only [fieldCheck_congr f.appName g.appName d.appName e.appName hf1 hd1,
      fieldCheck_congr f.triggerId g.triggerId d.metadata.id e.metadata.id
        hf2 hd2,
      fieldCheck_congr f.connectionId g.connectionId d.metadata.connectionId
        e.metadata.connectionId hf3 hd3,
      fieldCheck_congr f.triggerName g.triggerName d.metadata.triggerName
        e.metadata.triggerName hf4 hd4,
      connCheck_congr f.entityId g.entityId d.metadata.connection
        e.metadata.connection Connection.clientUniqueUserId
        "clientUniqueUserId" hf5 hc1,
      connCheck_congr f.integrationId g.integrationId d.metadata.connection
        e.metadata.connection Connection.integrationId "integrationId"
        hf6 hc2]

theorem fieldCheck_of_constrainedMatches (fld : JsField) (a : String)
    (h : constrainedMatches fld (some a) = true) : fieldCheck fld a = true := by
  cases fld <;> simp_all [constrainedMatches, fieldCheck]

theorem connCheck_of_constrainedMatches (fld : JsField)
    (conn : Option Connection) (proj : Connection → String) (prop : String)
    (h : constrainedMatches fld (conn.map proj) = true) :
    connCheck fld conn proj prop = .ok true := by
  cases fld with
  | absent => rfl
  | undef => rfl
  | str s =>
    cases hs : (s == "") with
    | true => simp [connCheck, hs]
    | false =>
      cases conn with
      | none =>
        have h2 : constrainedMatches (.str s) none = true := h
        simp [constrainedMatches, hs] at h2
      | some c =>
        have h2 : constrainedMatches (.str s) (some (proj c)) = true := h
        simp only [constrainedMatches, Bool.or_eq_true, hs,
          Bool.false_eq_true, false_or] at h2
        simp [connCheck, hs, h2]

theorem shouldSendTrigger_of_allConstrainedMatch (f : Filters)
    (d : TriggerData) (h : allConstrainedMatch f d = true) :
    shouldSendTrigger f d = .ok true := by
  simp only [allConstrainedMatch, Bool.and_eq_true] at h
  obtain ⟨⟨⟨⟨⟨h1, h2⟩, h3⟩, h4⟩, h5⟩, h6⟩ := h
  unfold shouldSendTrigger
  cases hq : (f.keyCount == 0) with
  | true => rfl
  | false =>
    simp only [Bool.false_eq_true, if_false]
    simp only [fieldCheck_of_constrainedMatches f.appName d.appName h1,
      fieldCheck_of_constrainedMatches f.triggerId d.metadata.id h2,
      fieldCheck_of_constrainedMatches f.connectionId d.metadata.connectionId
        h3,
      fieldCheck_of_constrainedMatches f.triggerName d.metadata.triggerName
        h4,
      connCheck_of_constrainedMatches f.entityId d.metadata.connection
        Connection.clientUniqueUserId "clientUniqueUserId" h5,
      connCheck_of_constrainedMatches f.integrationId d.metadata.connection
        Connection.integrationId "integrationId" h6]
    rfl

/-- C4: the case-insensitivity law. Replacing filter field values, or event
attributes, by strings with the same lower-casing never changes the result of
`shouldSendTrigger`; and whenever every constrained filter field equals the
corresponding event attribute case-insensitively, the result is true. -/
theorem shouldSendTrigger_case_insensitive (f g : Filters) (d e : TriggerData)
    (hfg : f.caseEquiv g = true) (hde : d.caseEquiv e = true) :
    shouldSendTrigger f d = shouldSendTrigger g e ∧
    (allConstrainedMatch f d = true → shouldSendTrigger f d = .ok true) :=
  ⟨shouldSendTrigger_congr f g d e hfg hde,
    fun h => shouldSendTrigger_of_allConstrainedMatch f d h⟩

/-- Witness for C4: filter `{appName: "GitHub"}` versus `{appName: "GITHUB"}`
on a github event whose attributes change case as well. -/
theorem shouldSendTrigger_case_insensitive_witness :
    Filters.caseEquiv { appName := .str "GitHub" }
      { appName := .str "GITHUB" } = true ∧
    TriggerData.caseEquiv ⟨"github", ⟨"i", "c", "t", some ⟨"u", "ig"⟩⟩⟩
      ⟨"GitHub", ⟨"I", "C", "T", some ⟨"U", "IG"⟩⟩⟩ = true ∧
    (shouldSendTrigger { appName := .str "GitHub" }
        ⟨"github", ⟨"i", "c", "t", some ⟨"u", "ig"⟩⟩⟩ =
      shouldSendTrigger { appName := .str "GITHUB" }
        ⟨"GitHub", ⟨"I", "C", "T", some ⟨"U", "IG"⟩⟩⟩ ∧
      (allConstrainedMatch { appName := .str "GitHub" }
          ⟨"github", ⟨"i", "c", "t", some ⟨"u", "ig"⟩⟩⟩ = true →
        shouldSendTrigger { appName := .str "GitHub" }
          ⟨"github", ⟨"i", "c", "t", some ⟨"u", "ig"⟩⟩⟩ = .ok true)) :=
  ⟨by decide, by decide,
    shouldSendTrigger_case_insensitive { appName := .str "GitHub" }
      { appName := .str "GITHUB" } ⟨"github", ⟨"i", "c", "t", some ⟨"u", "ig"⟩⟩⟩
      ⟨"GitHub", ⟨"I", "C", "T", some ⟨"U", "IG"⟩⟩⟩ (by decide) (by decide)⟩

/-- C5 (code-bug evidence): the dispatch wrapper registered by `subscribe`
has no try/catch around `fn(data)` (triggers.ts lines 234 to 238), so an
exception thrown by the subscriber callback propagates out of the listener
into the transport dispatch path instead of being caught and logged: here a
throwing callback under the empty filter makes the dispatch of a matching
event throw. -/
theorem callback_exception_reaches_dispatch :
    dispatchEvent (fun _ _ => .error (.plainError "subscriber failed"))
      (Registry.empty.register "client-1" ⟨{}, 7⟩) "client-1"
      ⟨"github", ⟨"i", "c", "t", none⟩⟩ =
      .error (.plainError "subscriber failed") := by
  decide

/-- C6: a second `subscribe` for the same identity replaces the prior
callback and filter: afterwards the registry holds exactly the new
subscription, dispatching an event that the old filter matches but the new
filter rejects invokes no callback, and after `unsubscribe` dispatching any
event for that identity invokes no callback. -/
theorem subscribe_last_writer_wins (st st2 : Registry) (cid : String)
    (f1 f2 : Filters) (id1 id2 : Nat) (d d2 : TriggerData)
    (cbs : Nat → TriggerData → Except JsError Unit)
    (hold : shouldSendTrigger f1 d = .ok true)
    (hnew : shouldSendTrigger f2 d = .ok false) :
    ((subscribeModel (subscribeModel st (some id1) f1 cid (.ok ())).registry
        (some id2) f2 cid (.ok ())).registry) cid = some ⟨f2, id2⟩ ∧
    dispatchEvent cbs
      ((subscribeModel (subscribeModel st (some id1) f1 cid (.ok ())).registry
        (some id2) f2 cid (.ok ())).registry) cid d = .ok none ∧
    dispatchEvent cbs (unsubscribeModel st2 cid) cid d2 = .ok none := by
  refine ⟨?_, ?_, ?_⟩
  · simp [subscribeModel, Registry.register]
  · simp [subscribeModel, Registry.register, dispatchEvent, listenerBody, hnew]
  · simp [unsubscribeModel, Registry.clear, dispatchEvent]

/-- Witness for C6: the old filter `{appName: "slack"}` matches the slack
event, the new filter `{appName: "github"}` does not. -/
theorem subscribe_last_writer_wins_witness :
    shouldSendTrigger { appName := .str "slack" }
      ⟨"slack", ⟨"i", "c", "t", none⟩⟩ = .ok true ∧
    shouldSendTrigger { appName := .str "github" }
      ⟨"slack", ⟨"i", "c", "t", none⟩⟩ = .ok false ∧
    (((subscribeModel (subscribeModel Registry.empty (some 1)
          { appName := .str "slack" } "client-1" (.ok ())).registry
        (some 2) { appName := .str "github" } "client-1" (.ok ())).registry)
        "client-1" = some ⟨{ appName := .str "github" }, 2⟩ ∧
      dispatchEvent (fun _ _ => .ok ())
        ((subscribeModel (subscribeModel Registry.empty (some 1)
            { appName := .str "slack" } "client-1" (.ok ())).registry
          (some 2) { appName := .str "github" } "client-1" (.ok ())).registry)
        "client-1" ⟨"slack", ⟨"i", "c", "t", none⟩⟩ = .ok none ∧
      dispatchEvent (fun _ _ => .ok ())
        (unsubscribeModel Registry.empty "client-1") "client-1"
        ⟨"slack", ⟨"i", "c", "t", none⟩⟩ = .ok none) :=
  ⟨by decide, by decide,
    subscribe_last_writer_wins Registry.empty Registry.empty "client-1"
      { appName := .str "slack" } { appName := .str "github" } 1 2
      ⟨"slack", ⟨"i", "c", "t", none⟩⟩ ⟨"slack", ⟨"i", "c", "t", none⟩⟩
      (fun _ _ => .ok ()) (by decide) (by decide)⟩

/-- C7: a `subscribe` call without a callback throws
`Error("Function is required for trigger subscription")` before resolving the
client identity or touching the transport, and leaves the subscription state
unchanged: the outcome keeps the input registry, carries the thrown error,
and records no external call. -/
theorem subscribe_missing_callback (st : Registry) (filters : Filters)
    (clientId : String) (transport : Except JsError Unit) :
    subscribeModel st none filters clientId transport =
      ⟨st,
        .error (.plainError "Function is required for trigger subscription"),
        []⟩ :=
  rfl

/-- C8: when the real-time transport cannot be initialised, the error from
`PusherUtils.getPusherClient` propagates to the awaiting caller of
`subscribe` uncaught, no callback is registered (the registry is unchanged),
and the listener-binding step is never reached. -/
theorem subscribe_transport_error_propagates (st : Registry) (fnId : Nat)
    (filters : Filters) (clientId : String) (e : JsError) :
    subscribeModel st (some fnId) filters clientId (.error e) =
      ⟨st, .error e, [.getClientId, .getPusherClient]⟩ :=
  rfl

/-- C9: for every trigger instance identifier, `enable` and `disable` each
issue exactly one status-switch request, the two differing only in the
`enabled` flag sent; each resolves with `true` when the remote call succeeds,
and a remote failure surfaces as a thrown RemoteError wrapping the upstream
status and message, never as a `false` return. -/
theorem enable_disable_switch (id : String) (status : Nat) (msg : String)
    (r : RemoteOutcome) :
    (enable id r).2 = [⟨id, true⟩] ∧
    (disable id r).2 = [⟨id, false⟩] ∧
    (enable id .success).1 = .ok true ∧
    (disable id .success).1 = .ok true ∧
    (enable id (.failure status msg)).1 = .error (.remoteError status msg) ∧
    (disable id (.failure status msg)).1 = .error (.remoteError status msg) ∧
    (enable id r).1 ≠ .ok false ∧
    (disable id r).1 ≠ .ok false := by
  cases r <;> simp [enable, disable]

end ComposioTriggers
